import Mathlib

/-!
Shallow embedding of the ultralog logging library (TypeScript) and proofs
about its specification.

The embedding covers:
* `ResilientLogger` (src/lib/transports/TransportFactory.ts): the resilience
  controller wrapping a primary logging pipeline with a fallback sink.
* `MetricsCollector` (src/lib/metrics/MetricsCollector.ts): counters,
  histograms, gauges keyed by canonicalized name+label keys.
* `Logger` (src/lib/Logger.ts): context derivation, async buffering and
  flushing, modelled over an explicit heap of logger objects so that
  sharing / non-sharing of collaborators between derived handles is
  observable.

Conventions: JavaScript numbers holding `Date.now()` timestamps and counters
are modelled as `Nat` (all values arising in the code are non-negative
integers; `now - last > interval` agrees with truncated subtraction on the
reachable states where `last ≤ now`). A `try { ... } catch` around a call
into the primary pipeline is modelled by passing the outcome of that call
(normal return or thrown error message) as an explicit argument; the
embedded operation is then a total function, which reflects that the
TypeScript method never lets the exception escape to its caller.
-/

/-- The six log level strings accepted by `log(level, ...)`
(`LogLevelString` in src/lib/types). -/
inductive LogLevelString where
  | fatal
  | error
  | warn
  | info
  | debug
  | trace
  deriving DecidableEq, Repr

/-- State of a `ResilientLogger`
(fields `errorCount` and `lastErrorTime` of the class; both initialized
to `0` by the constructor). -/
structure ResilientState where
  errorCount : Nat
  lastErrorTime : Nat
  deriving DecidableEq, Repr

namespace ResilientLogger

/-- The class constant `maxErrors = 10` (a private field, never mutated). -/
def maxErrors : Nat := 10

/-- The class constant `errorResetInterval = 60000` ms (a private field,
never mutated). -/
def errorResetInterval : Nat := 60000

/-- Outcome of a call into the primary pipeline: it either returns
normally or throws an error carrying a message. -/
inductive PrimaryOutcome where
  | ok
  | throws (errMsg : String)
  deriving DecidableEq, Repr

/-- Observable effects of one `ResilientLogger` operation, in order.
`M` is the type of the `meta` payload (TypeScript `any`).
`primaryAttempt` records that `primaryLogger.log` was invoked;
`fallbackDiag` records the diagnostic write
`fallbackLogger.error('Primary logger error', {error, stack, errorCount})`
performed by `handleError`; `fallbackLog` records the delivery
`fallbackLogger.log(level, message, meta)`. -/
inductive REvent (M : Type) where
  | primaryAttempt (level : LogLevelString) (message : String) (meta : Option M)
  | fallbackDiag (errMsg : String) (errorCount : Nat)
  | fallbackLog (level : LogLevelString) (message : String) (meta : Option M)
  deriving DecidableEq, Repr

/-- `shouldUseFallback()` : resets `errorCount` to `0` when
`now - lastErrorTime > errorResetInterval`, then reports whether
`errorCount >= maxErrors`. Returns the decision together with the
(possibly reset) state, since the method mutates `this.errorCount`. -/
def shouldUseFallback (s : ResilientState) (now : Nat) : Bool × ResilientState :=
  let s1 := if errorResetInterval < now - s.lastErrorTime then
    { s with errorCount := 0 } else s
  (decide (maxErrors ≤ s1.errorCount), s1)

/-- `handleError(error)` : increments `errorCount`, stamps
`lastErrorTime = Date.now()`, and logs a diagnostic record to the fallback
logger (carrying the post-increment `errorCount`, as the code reads
`this.errorCount` after the increment). -/
def handleError (M : Type) (s : ResilientState) (now : Nat) (errMsg : String) :
    ResilientState × REvent M :=
  let s1 : ResilientState := { errorCount := s.errorCount + 1, lastErrorTime := now }
  (s1, REvent.fallbackDiag errMsg s1.errorCount)

/-- `log(level, message, meta)` : first consults `shouldUseFallback()`;
if it returns true the record goes straight to the fallback logger.
Otherwise the primary pipeline is attempted; on success `errorCount` is
reset to `0`; on a thrown error, `handleError` runs and then the original
record is delivered via the fallback logger. The surrounding
`try { ... } catch` means the method never raises, which is reflected by
this being a total function. -/
def log {M : Type} (s : ResilientState) (now : Nat) (res : PrimaryOutcome)
    (level : LogLevelString) (message : String) (meta : Option M) :
    ResilientState × List (REvent M) :=
  let p := shouldUseFallback s now
  if p.1 then
    (p.2, [REvent.fallbackLog level message meta])
  else
    match res with
    | PrimaryOutcome.ok =>
        ({ p.2 with errorCount := 0 }, [REvent.primaryAttempt level message meta])
    | PrimaryOutcome.throws errMsg =>
        let q := handleError M p.2 now errMsg
        (q.1, [REvent.primaryAttempt level message meta, q.2,
               REvent.fallbackLog level message meta])

/-- `setLevel(level)` : proxies to the primary inside `try/catch`; a thrown
error is routed to `handleError` (which increments the counter and writes
the diagnostic record); nothing else happens and nothing is re-raised.
`res = none` models a normal return, `res = some errMsg` a thrown error. -/
def setLevel (M : Type) (s : ResilientState) (now : Nat) (_lvl : LogLevelString)
    (res : Option String) : ResilientState × List (REvent M) :=
  match res with
  | none => (s, [])
  | some errMsg =>
      let q := handleError M s now errMsg
      (q.1, [q.2])

/-- `setVerbose(enabled)` : same best-effort proxy shape as `setLevel`. -/
def setVerbose (M : Type) (s : ResilientState) (now : Nat) (_enabled : Bool)
    (res : Option String) : ResilientState × List (REvent M) :=
  match res with
  | none => (s, [])
  | some errMsg =>
      let q := handleError M s now errMsg
      (q.1, [q.2])

/-- `setVerboseFormat(format)` : same best-effort proxy shape as
`setLevel`; `fmt = true` models `"json"`, `fmt = false` models `"text"`. -/
def setVerboseFormat (M : Type) (s : ResilientState) (now : Nat) (_fmt : Bool)
    (res : Option String) : ResilientState × List (REvent M) :=
  match res with
  | none => (s, [])
  | some errMsg =>
      let q := handleError M s now errMsg
      (q.1, [q.2])

/-- `getLevel()` : proxies the read; on a thrown error runs `handleError`
and returns the default `'info'`. The outcome argument carries either the
primary's answer or the thrown error message. -/
def getLevel (M : Type) (s : ResilientState) (now : Nat)
    (res : Except String LogLevelString) :
    ResilientState × List (REvent M) × LogLevelString :=
  match res with
  | Except.ok lvl => (s, [], lvl)
  | Except.error errMsg =>
      let q := handleError M s now errMsg
      (q.1, [q.2], LogLevelString.info)

/-- `isVerbose()` : proxies the read; on a thrown error runs `handleError`
and returns the default `false`. -/
def isVerbose (M : Type) (s : ResilientState) (now : Nat)
    (res : Except String Bool) :
    ResilientState × List (REvent M) × Bool :=
  match res with
  | Except.ok b => (s, [], b)
  | Except.error errMsg =>
      let q := handleError M s now errMsg
      (q.1, [q.2], false)

/-- `getErrorCount()`. -/
def getErrorCount (s : ResilientState) : Nat := s.errorCount

/-- `resetErrorCount()` : sets both `errorCount` and `lastErrorTime`
to `0`. -/
def resetErrorCount (_s : ResilientState) : ResilientState :=
  { errorCount := 0, lastErrorTime := 0 }

/-- `isHealthy()` : `errorCount < maxErrors`. It reads only the counter;
it does not consult the clock. -/
def isHealthy (s : ResilientState) : Bool := decide (s.errorCount < maxErrors)

end ResilientLogger

namespace MetricsCollector

/-- A label record `Record<string, string>`, as its entry list
(`Object.entries(labels)`; a JavaScript object has pairwise-distinct
keys). -/
abbrev LabelMap := List (String × String)

/-- Key comparison used by `getMetricKey`'s
`.sort(([a], [b]) => a.localeCompare(b))`. `localeCompare` is modelled as
the lexicographic order on `String`; the canonicalization property proved
below only requires a deterministic total order on the (distinct) keys. -/
def labelLe (p q : String × String) : Prop := p.1 ≤ q.1

instance : DecidableRel labelLe := fun p q => inferInstanceAs (Decidable (p.1 ≤ q.1))

instance : IsTotal (String × String) labelLe :=
  ⟨fun p q => le_total p.1 q.1⟩

instance : IsTrans (String × String) labelLe :=
  ⟨fun _ _ _ h1 h2 => le_trans h1 h2⟩

/-- The `.sort(...)` step of `getMetricKey` (sort label entries by key). -/
def sortLabels (l : LabelMap) : LabelMap := List.insertionSort labelLe l

/-- `getMetricKey(name, labels)` : `name` when there are no labels,
otherwise `name{k1="v1",k2="v2",...}` with entries sorted by key and
joined with commas. -/
def getMetricKey (name : String) (labels : Option LabelMap) : String :=
  match labels with
  | none => name
  | some l =>
      if l = [] then name
      else
        let labelString := String.intercalate ","
          ((sortLabels l).map (fun p => p.1 ++ "=\"" ++ p.2 ++ "\""))
        name ++ "\x7b" ++ labelString ++ "\x7d"

/-- `Map.set(key, v)` on an association list preserving JavaScript `Map`
semantics: overwrite in place if the key exists, otherwise append. -/
def setAssoc {α : Type} : List (String × α) → String → α → List (String × α)
  | [], k, v => [(k, v)]
  | p :: rest, k, v =>
      if p.1 = k then (k, v) :: rest else p :: setAssoc rest k v

/-- State of a `MetricsCollector`: the `config.enabled` flag and the three
metric maps (`counters : Map<string, number>`,
`histograms : Map<string, number[]>`, `gauges : Map<string, number>`),
each modelled as an insertion-ordered association list. The unused
`customMetrics` map (written only by `reset`) is omitted. -/
structure MCState where
  enabled : Bool
  counters : List (String × Nat)
  histograms : List (String × List Int)
  gauges : List (String × Int)
  deriving DecidableEq, Repr

/-- A freshly constructed collector (`new MetricsCollector(config)`):
empty maps. -/
def init (enabled : Bool) : MCState :=
  { enabled := enabled, counters := [], histograms := [], gauges := [] }

/-- `incrementCounter(name, labels)` : no-op when metrics are disabled;
otherwise add one to the counter at the canonical key (missing counter
reads as `0`). -/
def incrementCounter (s : MCState) (name : String) (labels : Option LabelMap) :
    MCState :=
  if !s.enabled then s
  else
    let key := getMetricKey name labels
    let current := (s.counters.lookup key).getD 0
    { s with counters := setAssoc s.counters key (current + 1) }

/-- `recordHistogram(name, value, labels)` : append one observation to the
list at the canonical key. -/
def recordHistogram (s : MCState) (name : String) (value : Int)
    (labels : Option LabelMap) : MCState :=
  if !s.enabled then s
  else
    let key := getMetricKey name labels
    let current := (s.histograms.lookup key).getD []
    { s with histograms := setAssoc s.histograms key (current ++ [value]) }

/-- `setGauge(name, value, labels)` : last-write-wins at the canonical
key. -/
def setGauge (s : MCState) (name : String) (value : Int)
    (labels : Option LabelMap) : MCState :=
  if !s.enabled then s
  else
    let key := getMetricKey name labels
    { s with gauges := setAssoc s.gauges key value }

/-- Derived histogram statistics as built by `getMetrics()` for a
non-empty value list: `{count, sum, avg, min, max}`. -/
structure HistStat where
  count : Nat
  sum : Int
  avg : Rat
  min : Int
  max : Int
  deriving DecidableEq, Repr

/-- `Math.min(...values)` over a non-empty list (`[]` never occurs:
`getMetrics` guards with `values.length > 0`). -/
def listMin : List Int → Int
  | [] => 0
  | v :: vs => vs.foldl (fun a b => Min.min a b) v

/-- `Math.max(...values)`, same convention as `listMin`. -/
def listMax : List Int → Int
  | [] => 0
  | v :: vs => vs.foldl (fun a b => Max.max a b) v

/-- The statistics object `getMetrics()` builds from one histogram's
value list. -/
def histStatOf (values : List Int) : HistStat :=
  { count := values.length
    sum := values.foldl (· + ·) 0
    avg := ((values.foldl (· + ·) 0 : Int) : Rat) / (values.length : Rat)
    min := listMin values
    max := listMax values }

/-- The plain-data snapshot returned by `getMetrics()`: fresh records
holding only numbers and freshly built statistics objects — no references
into the collector's internal maps. -/
structure Snapshot where
  counters : List (String × Nat)
  histograms : List (String × HistStat)
  gauges : List (String × Int)
  deriving DecidableEq, Repr

/-- `getMetrics()` : copies every counter and gauge into fresh records and
computes a fresh statistics object per histogram, skipping histograms
whose value list is empty. -/
def getMetrics (s : MCState) : Snapshot :=
  { counters := s.counters
    histograms :=
      (s.histograms.filter (fun p => 0 < p.2.length)).map
        (fun p => (p.1, histStatOf p.2))
    gauges := s.gauges }

/-- `getMetrics()` viewed as a state transformer: it only reads, so the
collector state it returns is the one it was given. -/
def getMetricsOp (s : MCState) : MCState × Snapshot := (s, getMetrics s)

/-- `reset()` : clears all metric maps. -/
def reset (s : MCState) : MCState :=
  { s with counters := [], histograms := [], gauges := [] }

end MetricsCollector

namespace CoreLogger

/-- A logger context (`LoggerContext`, a `Record<string, ...>`), as its
entry list; values are modelled as integers. -/
abbrev Ctx := List (String × Int)

/-- Lookup in a context, first occurrence wins (JavaScript objects have
distinct keys). -/
def ctxLookup (c : Ctx) (k : String) : Option Int := c.lookup k

/-- The object spread `{ ...c, ...e }` used by `withContext` and `child`:
keys of `c` keep their position but take `e`'s value when `e` also binds
them; keys only in `e` are appended in `e`'s order. -/
def mergeCtx (c e : Ctx) : Ctx :=
  (c.map (fun p => match e.lookup p.1 with
    | some v => (p.1, v)
    | none => p)) ++
  e.filter (fun q => (c.lookup q.1).isNone)

/-- `TracingContext`. -/
structure Tracing where
  traceId : String
  spanId : String
  parentSpanId : Option String
  deriving DecidableEq, Repr

/-- A buffered `LogEntry` as built by `Logger.log` (the fields the later
dispatch consumes; the wall-clock timestamp and the copied
correlation/trace id fields are not modelled since no claim reads them). -/
structure Entry where
  level : LogLevelString
  message : String
  meta : Option Int
  context : Ctx
  deriving DecidableEq, Repr

/-- One record as received by the winston router
(`this.logger.log(level, message, { meta, context, tracing })`). -/
structure Dispatched where
  level : LogLevelString
  message : String
  meta : Option Int
  context : Ctx
  tracing : Option Tracing
  deriving DecidableEq, Repr

/-- One `Logger` object. `routerRef` and `metricsRef` are heap references
to the shared winston router and the shared `MetricsCollector`;
`buffer` is this object's own `buffer` field (each `new Logger(...)`
initializes a fresh empty array, and `flush` swaps it wholesale, so buffer
arrays are never aliased between logger objects). `hasFlushTimer` records
whether `setupAsyncBuffering` installed the interval timer (it runs only
inside `initialize()`, which derivation methods never call). -/
structure LoggerObj where
  context : Ctx
  tracing : Option Tracing
  routerRef : Nat
  metricsRef : Option Nat
  buffer : List Entry
  isAsync : Bool
  bufferSize : Option Nat
  hasFlushTimer : Bool
  deriving DecidableEq, Repr, Inhabited

/-- The system heap: logger objects and winston router objects, each
addressed by its list index. A router object is observed through the
sequence of records it has received. The shared `MetricsCollector` is kept
opaque here (its own model is `MetricsCollector.MCState`); `metricsRef`
only tracks which collector instance a handle references. -/
structure LoggerSys where
  loggers : List LoggerObj
  routers : List (List Dispatched)
  deriving DecidableEq, Repr

/-- Dereference a logger object. -/
def getLogger (sys : LoggerSys) (r : Nat) : LoggerObj :=
  sys.loggers.getD r default

/-- Overwrite a logger object in the heap. -/
def setLogger (sys : LoggerSys) (r : Nat) (o : LoggerObj) : LoggerSys :=
  { sys with loggers := sys.loggers.set r o }

/-- Records received so far by router `i`. -/
def routerOut (sys : LoggerSys) (i : Nat) : List Dispatched :=
  sys.routers.getD i []

/-- Append records to the receipt stream of router `i`. -/
def pushRouter (sys : LoggerSys) (i : Nat) (recs : List Dispatched) : LoggerSys :=
  { sys with routers := sys.routers.set i (sys.routers.getD i [] ++ recs) }

/-- The record the winston router receives for one buffered entry: the
entry's own level/message/meta/context, but the dispatching logger's
current `this.tracing` (as in both `Logger.log`'s synchronous branch and
`Logger.flush`). -/
def dispatchOf (o : LoggerObj) (e : Entry) : Dispatched :=
  { level := e.level, message := e.message, meta := e.meta
    context := e.context, tracing := o.tracing }

/-- `Logger.flush()` : early-return when the buffer is empty; otherwise
swap the buffer for an empty one and dispatch the swapped-out entries to
the router in order. -/
def flush (sys : LoggerSys) (r : Nat) : LoggerSys :=
  let o := getLogger sys r
  if o.buffer = [] then sys
  else
    let sys1 := setLogger sys r { o with buffer := [] }
    pushRouter sys1 o.routerRef (o.buffer.map (dispatchOf o))

/-- `Logger.log(level, message, meta)` : build the entry from the current
context; in async mode append it to this object's buffer and flush when
the configured `bufferSize` threshold is reached; in sync mode dispatch
directly to the router. (The call into the shared metrics collector is
not tracked in this heap model.) -/
def logCall (sys : LoggerSys) (r : Nat) (level : LogLevelString)
    (message : String) (meta : Option Int) : LoggerSys :=
  let o := getLogger sys r
  let e : Entry := { level := level, message := message, meta := meta
                     context := o.context }
  if o.isAsync then
    let o1 := { o with buffer := o.buffer ++ [e] }
    let sys1 := setLogger sys r o1
    match o.bufferSize with
    | some k => if k ≤ o1.buffer.length then flush sys1 r else sys1
    | none => sys1
  else
    pushRouter sys o.routerRef [dispatchOf o e]

/-- `Logger.withContext(context)` : allocate a fresh `Logger` object from
the same config. The new object's `context` is the spread-merge of the
receiver's context with `extra` (extra wins); its winston router and
metrics collector references are copied from the receiver (`newLogger.
logger = this.logger`, `newLogger.metricsCollector = this.metricsCollector`);
its `tracing` field is left unset (the constructor does not copy it), its
buffer is the constructor's fresh empty array, and no flush timer is
installed (`initialize()` is not called). Returns the updated heap and the
fresh object's reference; the receiver object is not written. -/
def withContext (sys : LoggerSys) (r : Nat) (extra : Ctx) : LoggerSys × Nat :=
  let o := getLogger sys r
  let o1 : LoggerObj :=
    { context := mergeCtx o.context extra
      tracing := none
      routerRef := o.routerRef
      metricsRef := o.metricsRef
      buffer := []
      isAsync := o.isAsync
      bufferSize := o.bufferSize
      hasFlushTimer := false }
  ({ sys with loggers := sys.loggers ++ [o1] }, sys.loggers.length)

/-- `Logger.withTracing(tracing?)` : like `withContext` but setting only
the tracing field: the given trace replaces tracing wholesale, and when it
is absent a freshly generated `{traceId, spanId}` pair is used
(`generateTracingContext` draws on `Math.random()` and `Date.now()`;
the generated pair is passed in as the explicit argument `freshTr`).
The new object's context field is left unset by this method. -/
def withTracing (sys : LoggerSys) (r : Nat) (tr : Option Tracing)
    (freshTr : Tracing) : LoggerSys × Nat :=
  let o := getLogger sys r
  let o1 : LoggerObj :=
    { context := []
      tracing := some (tr.getD freshTr)
      routerRef := o.routerRef
      metricsRef := o.metricsRef
      buffer := []
      isAsync := o.isAsync
      bufferSize := o.bufferSize
      hasFlushTimer := false }
  ({ sys with loggers := sys.loggers ++ [o1] }, sys.loggers.length)

/-- `Logger.child(defaultMeta)` : merges `defaultMeta` over the context
like `withContext`, shares the metrics collector, but sets
`newLogger.logger = this.logger.child(defaultMeta || \x7b\x7d)` — a fresh
winston child logger object (which forwards to the parent router's
transports; here only the object identities and per-router receipt
streams are modelled, so the child router is allocated as a new router
slot). -/
def child (sys : LoggerSys) (r : Nat) (extraMeta : Ctx) : LoggerSys × Nat :=
  let o := getLogger sys r
  let o1 : LoggerObj :=
    { context := mergeCtx o.context extraMeta
      tracing := none
      routerRef := sys.routers.length
      metricsRef := o.metricsRef
      buffer := []
      isAsync := o.isAsync
      bufferSize := o.bufferSize
      hasFlushTimer := false }
  ({ loggers := sys.loggers ++ [o1], routers := sys.routers ++ [[]] },
   sys.loggers.length)

/-- A sequence of `log` calls through the handle `r`. -/
def runCalls (sys : LoggerSys) (r : Nat)
    (calls : List (LogLevelString × String × Option Int)) : LoggerSys :=
  calls.foldl (fun s c => logCall s r c.1 c.2.1 c.2.2) sys

/-- The router record a call `(level, message, meta)` through handle `o`
eventually produces. -/
def callRecord (o : LoggerObj) (c : LogLevelString × String × Option Int) :
    Dispatched :=
  { level := c.1, message := c.2.1, meta := c.2.2
    context := o.context, tracing := o.tracing }

/-- Two logger objects that agree on everything except possibly the
buffer contents (`log` and `flush` only ever rewrite the buffer of the
object they run on). -/
def sameConfig (o o' : LoggerObj) : Prop :=
  o'.context = o.context ∧ o'.tracing = o.tracing ∧
  o'.routerRef = o.routerRef ∧ o'.isAsync = o.isAsync ∧
  o'.bufferSize = o.bufferSize

/-- Concrete entry used to instantiate the theorems below on a specific
system. -/
def sampleEntry : Entry :=
  { level := LogLevelString.warn, message := "p", meta := none, context := [] }

/-- Concrete logger object: async mode, flush threshold 2, one pending
buffered entry, sharing router 0 and metrics collector 0. -/
def sampleParent : LoggerObj :=
  { context := [("a", 0)], tracing := none, routerRef := 0,
    metricsRef := some 0, buffer := [sampleEntry], isAsync := true,
    bufferSize := some 2, hasFlushTimer := true }

/-- Concrete one-logger, one-router system. -/
def sampleSys : LoggerSys :=
  { loggers := [sampleParent], routers := [[]] }

end CoreLogger

section ResilientClaims

open ResilientLogger

/-- Helper: the controller state after a primary failure at time `t`,
starting from the freshly-constructed state `⟨0, 0⟩`. -/
theorem log_fresh_throws (t : Nat) (e : String) :
    (ResilientLogger.log (ResilientState.mk 0 0) t (PrimaryOutcome.throws e)
        LogLevelString.info "m" (none : Option Unit)).1 = ResilientState.mk 1 t := by
  simp only [ResilientLogger.log, shouldUseFallback, handleError, maxErrors,
    errorResetInterval]
  split <;> simp

/-- Helper: the controller state after a second primary failure at time
`t2`, starting from one failure recorded at `t1`. -/
theorem log_one_throws (t1 t2 : Nat) (e : String) :
    (ResilientLogger.log (ResilientState.mk 1 t1) t2 (PrimaryOutcome.throws e)
        LogLevelString.info "m" (none : Option Unit)).1
      = ResilientState.mk
          ((if errorResetInterval < t2 - t1 then 0 else 1) + 1) t2 := by
  simp only [ResilientLogger.log, shouldUseFallback, handleError, maxErrors,
    errorResetInterval]
  split <;> simp

/-- Claim C1 counterexample. The claim asserts that after time advances
past `resetInterval` with no further failures, `isHealthy()` returns true
again. In the code `isHealthy()` reads only `this.errorCount` and never
consults the clock, and nothing else runs when time merely passes: at the
concrete state with 10 failures whose last failure was at time 0, and with
the clock at 100000 (more than `errorResetInterval = 60000` past the last
failure), `isHealthy()` still returns false. The counter is only reset
when a subsequent log call runs `shouldUseFallback()`. -/
theorem resilient_idle_heal_counterexample :
    errorResetInterval < 100000 - (ResilientState.mk 10 0).lastErrorTime ∧
    isHealthy (ResilientState.mk 10 0) = false := by decide

/-- Claim C1 (amended): while the failure count has reached `maxErrors`
and at most `resetInterval` has passed since the last failure, every
leveled log call is routed directly to the fallback sink with the primary
pipeline never invoked, the controller state is unchanged, and
`isHealthy()` returns false. Once more than `resetInterval` has passed
since the last failure with no further failures, the next log call resets
the failure count, attempts the primary again, and `isHealthy()` then
returns true (the reset happens inside that call's `shouldUseFallback()`,
not by the mere passage of time). -/
theorem resilient_degraded_window_amended {M : Type} (s : ResilientState)
    (now now2 : Nat) (res : PrimaryOutcome) (lvl : LogLevelString)
    (msg : String) (meta : Option M)
    (hcount : maxErrors ≤ s.errorCount)
    (hwin : now - s.lastErrorTime ≤ errorResetInterval)
    (hidle : errorResetInterval < now2 - s.lastErrorTime) :
    ResilientLogger.log s now res lvl msg meta
      = (s, [REvent.fallbackLog lvl msg meta]) ∧
    isHealthy s = false ∧
    ResilientLogger.log s now2 PrimaryOutcome.ok lvl msg meta
      = (ResilientState.mk 0 s.lastErrorTime,
         [REvent.primaryAttempt lvl msg meta]) ∧
    isHealthy (ResilientLogger.log s now2 PrimaryOutcome.ok lvl msg meta).1
      = true := by
  obtain ⟨ec, lt⟩ := s
  simp only [maxErrors] at hcount
  have h1 : ¬ (errorResetInterval < now - lt) := by
    simp only [errorResetInterval] at hwin ⊢
    omega
  refine ⟨?_, ?_, ?_, ?_⟩
  · simp [ResilientLogger.log, shouldUseFallback, h1, maxErrors, hcount]
  · simp [isHealthy, maxErrors]
    omega
  · simp [ResilientLogger.log, shouldUseFallback, hidle, maxErrors]
  · simp [ResilientLogger.log, shouldUseFallback, hidle, maxErrors, isHealthy]

/-- Witness for `resilient_degraded_window_amended` at the concrete state
with 10 failures, last at time 0, checked at times 0 and 70000. -/
theorem resilient_degraded_window_amended_witness :
    (maxErrors ≤ (ResilientState.mk 10 0).errorCount ∧
     0 - (ResilientState.mk 10 0).lastErrorTime ≤ errorResetInterval ∧
     errorResetInterval < 70000 - (ResilientState.mk 10 0).lastErrorTime) ∧
    (ResilientLogger.log (ResilientState.mk 10 0) 0 PrimaryOutcome.ok
        LogLevelString.info "m" (none : Option Unit)
      = (ResilientState.mk 10 0,
         [REvent.fallbackLog LogLevelString.info "m" (none : Option Unit)]) ∧
    isHealthy (ResilientState.mk 10 0) = false ∧
    ResilientLogger.log (ResilientState.mk 10 0) 70000 PrimaryOutcome.ok
        LogLevelString.info "m" (none : Option Unit)
      = (ResilientState.mk 0 (ResilientState.mk 10 0).lastErrorTime,
         [REvent.primaryAttempt LogLevelString.info "m" (none : Option Unit)]) ∧
    isHealthy (ResilientLogger.log (ResilientState.mk 10 0) 70000
        PrimaryOutcome.ok LogLevelString.info "m" (none : Option Unit)).1
      = true) :=
  ⟨⟨by decide, by decide, by decide⟩,
   resilient_degraded_window_amended (ResilientState.mk 10 0) 0 70000
     PrimaryOutcome.ok LogLevelString.info "m" (none : Option Unit)
     (by decide) (by decide) (by decide)⟩

/-- Claim C2: when the controller is not in fallback mode and the primary
pipeline throws, the log call raises nothing to the caller (the embedded
operation is total and returns normally); it increments the failure
counter, stamps `lastErrorTime` with the current time, writes a diagnostic
record describing the failure to the fallback sink, and then delivers the
original `(level, message, meta)` via the fallback sink — in that order,
so the record is not dropped. -/
theorem resilient_failure_never_raises {M : Type} (s : ResilientState)
    (now : Nat) (err : String) (lvl : LogLevelString) (msg : String)
    (meta : Option M)
    (hfb : (shouldUseFallback s now).1 = false) :
    ResilientLogger.log s now (PrimaryOutcome.throws err) lvl msg meta
      = (ResilientState.mk ((shouldUseFallback s now).2.errorCount + 1) now,
         [REvent.primaryAttempt lvl msg meta,
          REvent.fallbackDiag err ((shouldUseFallback s now).2.errorCount + 1),
          REvent.fallbackLog lvl msg meta]) := by
  simp only [ResilientLogger.log, handleError]
  rw [hfb]
  simp

/-- Witness for `resilient_failure_never_raises` at the fresh controller
state, with the primary throwing `"boom"` at time 5. -/
theorem resilient_failure_never_raises_witness :
    (shouldUseFallback (ResilientState.mk 0 0) 5).1 = false ∧
    ResilientLogger.log (ResilientState.mk 0 0) 5
        (PrimaryOutcome.throws "boom") LogLevelString.error "x"
        (some (7 : Nat))
      = (ResilientState.mk
           ((shouldUseFallback (ResilientState.mk 0 0) 5).2.errorCount + 1) 5,
         [REvent.primaryAttempt LogLevelString.error "x" (some (7 : Nat)),
          REvent.fallbackDiag "boom"
            ((shouldUseFallback (ResilientState.mk 0 0) 5).2.errorCount + 1),
          REvent.fallbackLog LogLevelString.error "x" (some (7 : Nat))]) :=
  ⟨by decide,
   resilient_failure_never_raises (ResilientState.mk 0 0) 5 "boom"
     LogLevelString.error "x" (some (7 : Nat)) (by decide)⟩

/-- Claim C7 counterexample. Run: a first primary failure at time 0, a
second at time 50000, observed at time 70000. The claimed `windowStart`
(first failure of the cluster) is 0, and `70000 - 0 > 60000`, so the claim
says the count resets to 0; but the code measures inactivity from the
LAST failure (`lastErrorTime = 50000`, stamped by every `handleError`),
so `shouldUseFallback` at 70000 leaves the count at 2. -/
theorem resilient_window_start_counterexample :
    (ResilientLogger.log
        ((ResilientLogger.log (ResilientState.mk 0 0) 0
            (PrimaryOutcome.throws "e1") LogLevelString.info "m"
            (none : Option Unit)).1)
        50000 (PrimaryOutcome.throws "e2") LogLevelString.info "m"
        (none : Option Unit)).1 = ResilientState.mk 2 50000 ∧
    errorResetInterval < 70000 - 0 ∧
    (shouldUseFallback (ResilientState.mk 2 50000) 70000).2.errorCount = 2 := by
  decide

/-- Claim C7 (amended): the failure count resets to 0 once
`now - lastErrorTime > resetInterval`, where `lastErrorTime` is stamped at
EVERY failure (not at the first failure after a reset): after a cluster of
two failures at times `t1` and `t2`, the stamped time is `t2`, and the
count is reset at a later observation exactly when the MOST RECENT failure
is more than `resetInterval` old. -/
theorem resilient_sliding_window_amended (t1 t2 now : Nat) (e1 e2 : String) :
    ((ResilientLogger.log
        ((ResilientLogger.log (ResilientState.mk 0 0) t1
            (PrimaryOutcome.throws e1) LogLevelString.info "m"
            (none : Option Unit)).1)
        t2 (PrimaryOutcome.throws e2) LogLevelString.info "m"
        (none : Option Unit)).1).lastErrorTime = t2 ∧
    (((shouldUseFallback
        ((ResilientLogger.log
            ((ResilientLogger.log (ResilientState.mk 0 0) t1
                (PrimaryOutcome.throws e1) LogLevelString.info "m"
                (none : Option Unit)).1)
            t2 (PrimaryOutcome.throws e2) LogLevelString.info "m"
            (none : Option Unit)).1) now).2).errorCount = 0
      ↔ errorResetInterval < now - t2) ∧
    (∀ (s : ResilientState) (tf : Nat) (err : String),
      ((handleError Unit s tf err).1).lastErrorTime = tf ∧
      ((handleError Unit s tf err).1).errorCount = s.errorCount + 1) := by
  rw [log_fresh_throws, log_one_throws]
  refine ⟨rfl, ?_, fun s tf err => ⟨rfl, rfl⟩⟩
  simp only [shouldUseFallback]
  constructor
  · intro h
    by_contra hnot
    rw [if_neg hnot] at h
    simp at h
  · intro h
    rw [if_pos h]

/-- Claim C8 counterexample. The claim asserts that a failing proxied
configuration mutator makes NO log write to the fallback sink; but
`setLevel`'s catch block calls `handleError`, which writes the diagnostic
record `fallbackLogger.error('Primary logger error', ...)` to the fallback
sink: at the fresh state, `setLevel` with a primary throwing `"boom"`
produces exactly one fallback-sink write. -/
theorem resilient_setlevel_diag_counterexample :
    (ResilientLogger.setLevel Unit (ResilientState.mk 0 0) 5
        LogLevelString.debug (some "boom")).2
      = [REvent.fallbackDiag "boom" 1] ∧
    (ResilientLogger.setLevel Unit (ResilientState.mk 0 0) 5
        LogLevelString.debug (some "boom")).2 ≠ [] := by decide

/-- Claim C8 (amended): for every configuration accessor proxied to the
primary (`setLevel`, `setVerbose`, `setVerboseFormat`, `getLevel`,
`isVerbose`), when the primary throws, the failure counter is incremented
and `lastErrorTime` stamped, exactly one diagnostic record is written to
the fallback sink (but no original-message delivery occurs — there is no
`fallbackLog` event), the call does not raise to the caller (the embedded
operations are total), and the failing reads return their defaults
(`'info'` for `getLevel`, `false` for `isVerbose`). -/
theorem resilient_config_proxy_amended (M : Type) (s : ResilientState)
    (now : Nat) (lvl : LogLevelString) (b fmtb : Bool) (err : String) :
    ResilientLogger.setLevel M s now lvl (some err)
      = (ResilientState.mk (s.errorCount + 1) now,
         [REvent.fallbackDiag err (s.errorCount + 1)]) ∧
    ResilientLogger.setVerbose M s now b (some err)
      = (ResilientState.mk (s.errorCount + 1) now,
         [REvent.fallbackDiag err (s.errorCount + 1)]) ∧
    ResilientLogger.setVerboseFormat M s now fmtb (some err)
      = (ResilientState.mk (s.errorCount + 1) now,
         [REvent.fallbackDiag err (s.errorCount + 1)]) ∧
    ResilientLogger.getLevel M s now (Except.error err)
      = (ResilientState.mk (s.errorCount + 1) now,
         [REvent.fallbackDiag err (s.errorCount + 1)], LogLevelString.info) ∧
    ResilientLogger.isVerbose M s now (Except.error err)
      = (ResilientState.mk (s.errorCount + 1) now,
         [REvent.fallbackDiag err (s.errorCount + 1)], false) :=
  ⟨rfl, rfl, rfl, rfl, rfl⟩

/-- Claim C10: `resetErrorCount()` sets both the failure counter and the
last-error timestamp to 0; immediately afterwards `getErrorCount()`
returns 0, `isHealthy()` returns true, and the next log call attempts the
primary pipeline first (its first observable effect is the primary
attempt), regardless of the state accumulated before the reset. -/
theorem resilient_reset_error_count {M : Type} (s : ResilientState)
    (now : Nat) (res : PrimaryOutcome) (lvl : LogLevelString) (msg : String)
    (meta : Option M) :
    getErrorCount (resetErrorCount s) = 0 ∧
    (resetErrorCount s).lastErrorTime = 0 ∧
    isHealthy (resetErrorCount s) = true ∧
    (ResilientLogger.log (resetErrorCount s) now res lvl msg meta).2.head?
      = some (REvent.primaryAttempt lvl msg meta) := by
  refine ⟨rfl, rfl, rfl, ?_⟩
  cases res <;>
    · simp only [ResilientLogger.log, shouldUseFallback, resetErrorCount,
        maxErrors, errorResetInterval, handleError]
      split <;> simp

end ResilientClaims

section MetricsClaims

open MetricsCollector

/-- Helper: `setAssoc` makes the written key read back the written
value. -/
theorem setAssoc_lookup_self {α : Type} :
    ∀ (m : List (String × α)) (k : String) (v : α),
      (setAssoc m k v).lookup k = some v
  | [], k, v => by simp [setAssoc]
  | p :: rest, k, v => by
      obtain ⟨pk, pv⟩ := p
      by_cases h : pk = k
      · simp [setAssoc, h]
      · have hb : (k == pk) = false := by
          simp [Ne.symm h]
        simp [setAssoc, h, List.lookup, hb, setAssoc_lookup_self rest k v]

/-- Helper: two sorted label lists that are permutations of each other
and have pairwise-distinct keys are equal. -/
theorem sorted_nodupkeys_eq :
    ∀ {l1 l2 : LabelMap}, l1.Perm l2 → List.Sorted labelLe l1 →
      List.Sorted labelLe l2 → (l1.map Prod.fst).Nodup → l1 = l2 := by
  intro l1
  induction l1 with
  | nil =>
    intro l2 hp _ _ _
    exact (hp.symm.eq_nil).symm
  | cons p t1 ih =>
    intro l2 hp hs1 hs2 hnd
    cases l2 with
    | nil => exact absurd hp.eq_nil (List.cons_ne_nil p t1)
    | cons q t2 =>
      have hpm : p ∈ q :: t2 := hp.subset (List.mem_cons_self p t1)
      have hqm : q ∈ p :: t1 := hp.symm.subset (List.mem_cons_self q t2)
      have hpq : p = q := by
        rcases List.mem_cons.mp hpm with h | hpt2
        · exact h
        rcases List.mem_cons.mp hqm with h | hqt1
        · exact h.symm
        have h1 : labelLe q p := List.rel_of_sorted_cons hs2 p hpt2
        have h2 : labelLe p q := List.rel_of_sorted_cons hs1 q hqt1
        have hk : p.1 = q.1 := le_antisymm h2 h1
        have hmem : p.1 ∈ t1.map Prod.fst := by
          rw [hk]
          exact List.mem_map.mpr ⟨q, hqt1, rfl⟩
        rw [List.map_cons] at hnd
        exact absurd hmem (List.nodup_cons.mp hnd).1
      subst hpq
      have hnd' : (t1.map Prod.fst).Nodup := by
        rw [List.map_cons] at hnd
        exact (List.nodup_cons.mp hnd).2
      rw [ih hp.cons_inv (List.sorted_cons.mp hs1).2 (List.sorted_cons.mp hs2).2
        hnd']

/-- Helper: sorting is a permutation. -/
theorem sortLabels_perm (l : LabelMap) : (sortLabels l).Perm l :=
  List.perm_insertionSort labelLe l

/-- Helper: sorting sorts. -/
theorem sortLabels_sorted (l : LabelMap) : List.Sorted labelLe (sortLabels l) :=
  List.sorted_insertionSort labelLe l

/-- Helper: sorting canonicalizes label lists up to permutation when keys
are pairwise distinct. -/
theorem sortLabels_canonical {l1 l2 : LabelMap} (hp : l1.Perm l2)
    (hnd : (l1.map Prod.fst).Nodup) : sortLabels l1 = sortLabels l2 := by
  apply sorted_nodupkeys_eq
  · exact (sortLabels_perm l1).trans (hp.trans (sortLabels_perm l2).symm)
  · exact sortLabels_sorted l1
  · exact sortLabels_sorted l2
  · exact ((sortLabels_perm l1).map Prod.fst).nodup_iff.mpr hnd

/-- Helper: `getMetricKey` is invariant under label insertion order
(for distinct keys). -/
theorem getMetricKey_perm (name : String) {l1 l2 : LabelMap} (hp : l1.Perm l2)
    (hnd : (l1.map Prod.fst).Nodup) :
    getMetricKey name (some l1) = getMetricKey name (some l2) := by
  rcases eq_or_ne l1 [] with h1 | h1
  · subst h1
    rw [hp.symm.eq_nil]
  · have h2 : l2 ≠ [] := by
      intro h
      subst h
      exact h1 hp.eq_nil
    simp only [getMetricKey]
    rw [if_neg h1, if_neg h2, sortLabels_canonical hp hnd]

/-- Helper: `incrementCounter` keeps `config.enabled`. -/
theorem incrementCounter_enabled (s : MCState) (name : String)
    (labels : Option LabelMap) :
    (incrementCounter s name labels).enabled = s.enabled := by
  unfold incrementCounter
  split <;> rfl

/-- Helper: with metrics enabled, `incrementCounter` adds one at the
canonical key. -/
theorem incrementCounter_lookup (s : MCState) (name : String)
    (labels : Option LabelMap) (hen : s.enabled = true) :
    ((incrementCounter s name labels).counters.lookup
        (getMetricKey name labels)).getD 0
      = (s.counters.lookup (getMetricKey name labels)).getD 0 + 1 := by
  simp [incrementCounter, hen, setAssoc_lookup_self]

/-- Helper: a fold of `incrementCounter` calls that all canonicalize to
key `K` adds the call count at `K`. -/
theorem incr_fold (name : String) (K : String) :
    ∀ (calls : List LabelMap) (s : MCState), s.enabled = true →
      (∀ p ∈ calls, getMetricKey name (some p) = K) →
      (((calls.foldl (fun acc p => incrementCounter acc name (some p))
          s).counters.lookup K).getD 0)
        = (s.counters.lookup K).getD 0 + calls.length
  | [], s, _, _ => by simp
  | p :: rest, s, hen, hk => by
      simp only [List.foldl_cons, List.length_cons]
      have hkp : getMetricKey name (some p) = K := hk p (List.mem_cons_self p rest)
      have h1 : ((incrementCounter s name (some p)).counters.lookup K).getD 0
          = (s.counters.lookup K).getD 0 + 1 := by
        rw [← hkp]
        exact incrementCounter_lookup s name (some p) hen
      rw [incr_fold name K rest (incrementCounter s name (some p))
        (by rw [incrementCounter_enabled]; exact hen)
        (fun q hq => hk q (List.mem_cons_of_mem _ hq)), h1]
      omega

/-- Claim C5: with metrics enabled, two updates with the same metric name
and the same label set — regardless of label insertion order — aggregate
into the same accumulator: `getMetricKey` sorts the label entries by key
before lookup, so permuted label maps produce the same canonical key; and
after `n` `incrementCounter(name, labels)` calls whose label maps are all
permutations of one set `l`, the counter at the canonical key equals
`n`. -/
theorem metrics_label_canonicalization (name : String) (l l2 : LabelMap)
    (calls : List LabelMap)
    (hnd : (l.map Prod.fst).Nodup) (hperm : l2.Perm l)
    (hcalls : ∀ p ∈ calls, p.Perm l) :
    getMetricKey name (some l2) = getMetricKey name (some l) ∧
    (((calls.foldl (fun acc p => incrementCounter acc name (some p))
        (init true)).counters.lookup (getMetricKey name (some l))).getD 0)
      = calls.length := by
  constructor
  · exact getMetricKey_perm name hperm ((hperm.map Prod.fst).nodup_iff.mpr hnd)
  · have h := incr_fold name (getMetricKey name (some l)) calls (init true) rfl
      (fun p hp => getMetricKey_perm name (hcalls p hp)
        (((hcalls p hp).map Prod.fst).nodup_iff.mpr hnd))
    simpa [init] using h

/-- Witness for `metrics_label_canonicalization` : two increments with the
label maps `{a:"1", b:"2"}` and `{b:"2", a:"1"}` (the same set in the two
insertion orders) land on the same canonical key and yield counter 2. -/
theorem metrics_label_canonicalization_witness :
    ((([("a", "1"), ("b", "2")] : LabelMap).map Prod.fst).Nodup ∧
     ([("b", "2"), ("a", "1")] : LabelMap).Perm [("a", "1"), ("b", "2")] ∧
     (∀ p ∈ ([[("a", "1"), ("b", "2")], [("b", "2"), ("a", "1")]] :
         List LabelMap), p.Perm [("a", "1"), ("b", "2")])) ∧
    (getMetricKey "m" (some [("b", "2"), ("a", "1")])
        = getMetricKey "m" (some [("a", "1"), ("b", "2")]) ∧
     ((([[("a", "1"), ("b", "2")], [("b", "2"), ("a", "1")]] :
          List LabelMap).foldl
        (fun acc p => incrementCounter acc "m" (some p))
        (init true)).counters.lookup
          (getMetricKey "m" (some [("a", "1"), ("b", "2")]))).getD 0 = 2) :=
  ⟨⟨by decide, by decide, by decide⟩,
   metrics_label_canonicalization "m" [("a", "1"), ("b", "2")]
     [("b", "2"), ("a", "1")]
     [[("a", "1"), ("b", "2")], [("b", "2"), ("a", "1")]]
     (by decide) (by decide) (by decide)⟩

/-- Claim C9: `getMetrics()` leaves the collector's internal state
unchanged (it is a pure read: the state threaded out equals the state
passed in), and two calls with no intervening mutation return equal
snapshots. The snapshot is plain data built fresh on every call — counter
and gauge values are numbers and each histogram statistics object is
computed from the stored observations at read time — so it holds no
references into the collector and mutating a returned snapshot value
cannot change what a later call returns. -/
theorem metrics_snapshot_pure (s : MCState) :
    (getMetricsOp s).1 = s ∧
    (getMetricsOp ((getMetricsOp s).1)).2 = (getMetricsOp s).2 :=
  ⟨rfl, rfl⟩

end MetricsClaims

section CoreLoggerClaims

open CoreLogger

/-- Helper: `getD` after in-range `set` at the same index. -/
theorem listGetD_set_self {α : Type} (l : List α) (i : Nat) (x d : α)
    (h : i < l.length) : (l.set i x).getD i d = x := by
  rw [List.getD_eq_getElem?_getD, List.getElem?_set_eq_of_lt x h]
  rfl

/-- Helper: `getD` after `set` at a different index. -/
theorem listGetD_set_ne {α : Type} (l : List α) {i j : Nat} (x d : α)
    (h : i ≠ j) : (l.set i x).getD j d = l.getD j d := by
  rw [List.getD_eq_getElem?_getD, List.getElem?_set_ne h,
    ← List.getD_eq_getElem?_getD]

/-- Helper: `getD` of an append, index within the left part. -/
theorem listGetD_append_left {α : Type} (l l2 : List α) (j : Nat) (d : α)
    (h : j < l.length) : (l ++ l2).getD j d = l.getD j d := by
  rw [List.getD_eq_getElem?_getD, List.getElem?_append_left h,
    ← List.getD_eq_getElem?_getD]

/-- Helper: `getD` of the freshly appended element. -/
theorem listGetD_concat_length {α : Type} (l : List α) (x d : α) :
    (l ++ [x]).getD l.length d = x := by
  rw [List.getD_eq_getElem?_getD, List.getElem?_concat_length]
  rfl

/-- Helper: reading back an in-range heap write. -/
theorem getLogger_setLogger_self (sys : LoggerSys) (r : Nat) (o : LoggerObj)
    (h : r < sys.loggers.length) : getLogger (setLogger sys r o) r = o :=
  listGetD_set_self sys.loggers r o default h

/-- Helper: a heap write does not affect other objects. -/
theorem getLogger_setLogger_ne (sys : LoggerSys) {r j : Nat} (o : LoggerObj)
    (h : r ≠ j) : getLogger (setLogger sys r o) j = getLogger sys j :=
  listGetD_set_ne sys.loggers o default h

/-- Helper: router writes do not affect logger objects. -/
theorem getLogger_pushRouter (sys : LoggerSys) (i : Nat)
    (recs : List Dispatched) (r : Nat) :
    getLogger (pushRouter sys i recs) r = getLogger sys r := rfl

/-- Helper: logger writes do not affect router streams. -/
theorem routerOut_setLogger (sys : LoggerSys) (r : Nat) (o : LoggerObj)
    (i : Nat) : routerOut (setLogger sys r o) i = routerOut sys i := rfl

/-- Helper: a router receives appended records. -/
theorem routerOut_pushRouter_self (sys : LoggerSys) (i : Nat)
    (recs : List Dispatched) (h : i < sys.routers.length) :
    routerOut (pushRouter sys i recs) i = routerOut sys i ++ recs :=
  listGetD_set_self sys.routers i _ [] h

/-- Helper: a push to one router leaves other routers unchanged. -/
theorem routerOut_pushRouter_ne (sys : LoggerSys) {i j : Nat}
    (recs : List Dispatched) (h : i ≠ j) :
    routerOut (pushRouter sys i recs) j = routerOut sys j :=
  listGetD_set_ne sys.routers _ [] h

/-- Helper: `setLogger` preserves both heap sizes. -/
theorem setLogger_lengths (sys : LoggerSys) (r : Nat) (o : LoggerObj) :
    (setLogger sys r o).loggers.length = sys.loggers.length ∧
    (setLogger sys r o).routers.length = sys.routers.length :=
  ⟨List.length_set sys.loggers r o, rfl⟩

/-- Helper: `pushRouter` preserves both heap sizes. -/
theorem pushRouter_lengths (sys : LoggerSys) (i : Nat)
    (recs : List Dispatched) :
    (pushRouter sys i recs).loggers.length = sys.loggers.length ∧
    (pushRouter sys i recs).routers.length = sys.routers.length :=
  ⟨rfl, List.length_set sys.routers i _⟩

/-- Helper: rebuilding a logger object with its own (empty) buffer is the
identity. -/
theorem loggerObj_eta (o : LoggerObj) (h : o.buffer = []) :
    ({ o with buffer := [] } : LoggerObj) = o := by
  cases o
  simp_all

/-- Helper: `flush` on an empty buffer is the untouched system. -/
theorem flush_empty (sys : LoggerSys) (r : Nat)
    (h : (getLogger sys r).buffer = []) : flush sys r = sys := by
  simp [flush, h]

/-- Helper: `sameConfig` is reflexive. -/
theorem sameConfig_refl (o : LoggerObj) : sameConfig o o :=
  ⟨rfl, rfl, rfl, rfl, rfl⟩

/-- Helper: `sameConfig` composes. -/
theorem sameConfig_trans {o1 o2 o3 : LoggerObj} (h1 : sameConfig o1 o2)
    (h2 : sameConfig o2 o3) : sameConfig o1 o3 := by
  obtain ⟨a1, b1, c1, d1, e1⟩ := h1
  obtain ⟨a2, b2, c2, d2, e2⟩ := h2
  exact ⟨a2.trans a1, b2.trans b1, c2.trans c1, d2.trans d1, e2.trans e1⟩

/-- Helper: dispatching depends only on the handle's configuration
fields. -/
theorem dispatchOf_congr {o o' : LoggerObj} (h : sameConfig o o') :
    dispatchOf o' = dispatchOf o := by
  funext e
  simp [dispatchOf, h.2.1]

/-- Helper: the produced router record depends only on the handle's
configuration fields. -/
theorem callRecord_congr {o o' : LoggerObj} (h : sameConfig o o') :
    callRecord o' = callRecord o := by
  funext c
  simp [callRecord, h.1, h.2.1]

/-- Helper: association-list lookup distributes over append. -/
theorem lookup_append {α : Type} (l1 l2 : List (String × α)) (k : String) :
    (l1 ++ l2).lookup k = ((l1.lookup k).orElse (fun _ => l2.lookup k)) := by
  induction l1 with
  | nil => simp [Option.orElse]
  | cons p t ih =>
    obtain ⟨pk, pv⟩ := p
    by_cases h : k = pk
    · simp [List.lookup, h]
    · have hb : (k == pk) = false := by simp [h]
      simp [List.lookup, hb, ih]

/-- Helper: lookup in the override-mapped left part of `mergeCtx`. -/
theorem lookup_map_override (c e : Ctx) (k : String) :
    (c.map (fun p => match e.lookup p.1 with
        | some v => (p.1, v)
        | none => p)).lookup k
      = match c.lookup k with
        | none => none
        | some v => some ((e.lookup k).getD v) := by
  induction c with
  | nil => simp
  | cons p t ih =>
    obtain ⟨pk, pv⟩ := p
    by_cases h : k = pk
    · subst h
      cases he : e.lookup k <;> simp [List.lookup, he]
    · have hb : (k == pk) = false := by simp [h]
      cases he : e.lookup pk <;> simp [List.lookup, hb, he, ih]

/-- Helper: lookup in a list filtered by a key-only predicate. -/
theorem lookup_filter_key {α : Type} (e : List (String × α))
    (pred : String → Bool) (k : String) :
    (e.filter (fun q => pred q.1)).lookup k
      = if pred k then e.lookup k else none := by
  induction e with
  | nil => simp
  | cons p t ih =>
    obtain ⟨pk, pv⟩ := p
    by_cases h : k = pk
    · subst h
      by_cases hp : pred k <;> simp [List.filter, List.lookup, hp, ih]
    · have hb : (k == pk) = false := by simp [h]
      by_cases hp : pred pk <;> simp [List.filter, List.lookup, hp, hb, ih]

/-- Helper: the spread-merge looks up to the extra map first and falls
back to the base context (extra wins on key conflict). -/
theorem ctxLookup_mergeCtx (c e : Ctx) (k : String) :
    ctxLookup (mergeCtx c e) k
      = ((e.lookup k).orElse (fun _ => c.lookup k)) := by
  unfold ctxLookup mergeCtx
  rw [lookup_append, lookup_map_override,
    lookup_filter_key e (fun s => (c.lookup s).isNone) k]
  cases hc : c.lookup k <;> cases he : e.lookup k <;>
    simp [Option.orElse, hc, he]

/-- Helper: effect of `flush` on the flushing logger, its router, and the
heap sizes. -/
theorem flush_obs (sys : LoggerSys) (r : Nat) (o : LoggerObj)
    (ho : getLogger sys r = o)
    (hr : r < sys.loggers.length)
    (hro : o.routerRef < sys.routers.length) :
    (flush sys r).loggers.length = sys.loggers.length ∧
    (flush sys r).routers.length = sys.routers.length ∧
    getLogger (flush sys r) r = { o with buffer := [] } ∧
    routerOut (flush sys r) o.routerRef
      = routerOut sys o.routerRef ++ o.buffer.map (dispatchOf o) := by
  by_cases hb : o.buffer = []
  · rw [flush_empty sys r (by rw [ho]; exact hb)]
    refine ⟨rfl, rfl, ?_, by simp [hb]⟩
    rw [ho]
    exact (loggerObj_eta o hb).symm
  · have hE : flush sys r
        = pushRouter (setLogger sys r { o with buffer := [] })
            o.routerRef (o.buffer.map (dispatchOf o)) := by
      simp [flush, ho, hb]
    rw [hE]
    refine ⟨by simp [pushRouter, setLogger], by simp [pushRouter, setLogger],
      ?_, ?_⟩
    · rw [getLogger_pushRouter, getLogger_setLogger_self _ _ _ hr]
    · have h2 : o.routerRef
          < (setLogger sys r { o with buffer := [] }).routers.length := hro
      rw [routerOut_pushRouter_self _ _ _ h2, routerOut_setLogger]

/-- Helper: in async mode, when the size threshold is not reached, `log`
only appends the new entry to the caller's buffer. -/
theorem logCall_eq_push (sys : LoggerSys) (r : Nat) (level : LogLevelString)
    (msg : String) (meta : Option Int) (o : LoggerObj)
    (ho : getLogger sys r = o) (hasync : o.isAsync = true)
    (hnf : ∀ k, o.bufferSize = some k → o.buffer.length + 1 < k) :
    logCall sys r level msg meta
      = setLogger sys r { o with buffer := o.buffer ++
          [{ level := level, message := msg, meta := meta,
             context := o.context }] } := by
  cases hbs : o.bufferSize with
  | none => simp [logCall, ho, hasync, hbs]
  | some k =>
      have hk := hnf k hbs
      simp [logCall, ho, hasync, hbs]
      intro h
      omega

/-- Helper: in async mode, when the size threshold is reached by the
appended entry, `log` appends and then flushes. -/
theorem logCall_eq_flushed (sys : LoggerSys) (r : Nat)
    (level : LogLevelString) (msg : String) (meta : Option Int)
    (o : LoggerObj) (k : Nat)
    (ho : getLogger sys r = o) (hasync : o.isAsync = true)
    (hbs : o.bufferSize = some k) (hth : k ≤ o.buffer.length + 1) :
    logCall sys r level msg meta
      = flush (setLogger sys r { o with buffer := o.buffer ++
          [{ level := level, message := msg, meta := meta,
             context := o.context }] }) r := by
  simp [logCall, ho, hasync, hbs, hth]

/-- Helper: effect of one async `log` call on the calling logger, its
router, and the heap sizes: the observation
`router stream ++ pending dispatches` grows by exactly the call's record,
and the handle's configuration fields are untouched. -/
theorem logCall_inv (sys : LoggerSys) (r : Nat)
    (c : LogLevelString × String × Option Int) (o : LoggerObj)
    (ho : getLogger sys r = o)
    (hr : r < sys.loggers.length)
    (hro : o.routerRef < sys.routers.length)
    (hasync : o.isAsync = true) :
    (logCall sys r c.1 c.2.1 c.2.2).loggers.length = sys.loggers.length ∧
    (logCall sys r c.1 c.2.1 c.2.2).routers.length = sys.routers.length ∧
    sameConfig o (getLogger (logCall sys r c.1 c.2.1 c.2.2) r) ∧
    routerOut (logCall sys r c.1 c.2.1 c.2.2) o.routerRef
        ++ (getLogger (logCall sys r c.1 c.2.1 c.2.2) r).buffer.map
            (dispatchOf o)
      = routerOut sys o.routerRef ++ o.buffer.map (dispatchOf o)
        ++ [callRecord o c] := by
  by_cases hflu : ∃ k, o.bufferSize = some k ∧ k ≤ o.buffer.length + 1
  · obtain ⟨k, hbs, hth⟩ := hflu
    rw [logCall_eq_flushed sys r c.1 c.2.1 c.2.2 o k ho hasync hbs hth]
    have hr1 : r < (setLogger sys r { o with buffer := o.buffer ++
        [{ level := c.1, message := c.2.1, meta := c.2.2,
           context := o.context }] }).loggers.length := by
      simpa [setLogger] using hr
    have hget1 : getLogger (setLogger sys r { o with buffer := o.buffer ++
        [{ level := c.1, message := c.2.1, meta := c.2.2,
           context := o.context }] }) r
        = { o with buffer := o.buffer ++
        [{ level := c.1, message := c.2.1, meta := c.2.2,
           context := o.context }] } :=
      getLogger_setLogger_self _ _ _ hr
    have hro1 : ({ o with buffer := o.buffer ++
        [{ level := c.1, message := c.2.1, meta := c.2.2,
           context := o.context }] } : LoggerObj).routerRef
        < (setLogger sys r { o with buffer := o.buffer ++
        [{ level := c.1, message := c.2.1, meta := c.2.2,
           context := o.context }] }).routers.length := hro
    obtain ⟨L1, L2, L3, L4⟩ := flush_obs _ r _ hget1 hr1 hro1
    have hdc : dispatchOf ({ o with buffer := o.buffer ++
        [{ level := c.1, message := c.2.1, meta := c.2.2,
           context := o.context }] } : LoggerObj) = dispatchOf o :=
      dispatchOf_congr ⟨rfl, rfl, rfl, rfl, rfl⟩
    refine ⟨?_, ?_, ?_, ?_⟩
    · rw [L1]
      simp [setLogger]
    · rw [L2]
      simp [setLogger]
    · rw [L3]
      exact ⟨rfl, rfl, rfl, rfl, rfl⟩
    · rw [L3]
      simp only [List.map_nil, List.append_nil]
      rw [L4, routerOut_setLogger, hdc]
      simp [dispatchOf, callRecord]
  · have hnf : ∀ k, o.bufferSize = some k → o.buffer.length + 1 < k := by
      intro k hk
      by_contra h
      exact hflu ⟨k, hk, by omega⟩
    rw [logCall_eq_push sys r c.1 c.2.1 c.2.2 o ho hasync hnf]
    refine ⟨by simp [setLogger], by simp [setLogger], ?_, ?_⟩
    · rw [getLogger_setLogger_self _ _ _ hr]
      exact ⟨rfl, rfl, rfl, rfl, rfl⟩
    · rw [getLogger_setLogger_self _ _ _ hr, routerOut_setLogger]
      simp [dispatchOf, callRecord]

/-- Helper: effect of a sequence of async `log` calls: the observation
`router stream ++ pending dispatches` grows by exactly the call records in
call order, and the handle's configuration fields are untouched. -/
theorem runCalls_inv (r : Nat) :
    ∀ (calls : List (LogLevelString × String × Option Int)) (sys : LoggerSys)
      (o : LoggerObj), getLogger sys r = o →
      r < sys.loggers.length →
      o.routerRef < sys.routers.length →
      o.isAsync = true →
      (runCalls sys r calls).loggers.length = sys.loggers.length ∧
      (runCalls sys r calls).routers.length = sys.routers.length ∧
      sameConfig o (getLogger (runCalls sys r calls) r) ∧
      routerOut (runCalls sys r calls) o.routerRef
          ++ (getLogger (runCalls sys r calls) r).buffer.map (dispatchOf o)
        = routerOut sys o.routerRef ++ o.buffer.map (dispatchOf o)
          ++ calls.map (callRecord o)
  | [], sys, o, ho, _, _, _ => by
      refine ⟨rfl, rfl, ?_, by simp [runCalls, ho]⟩
      rw [runCalls, List.foldl_nil, ho]
      exact sameConfig_refl o
  | c :: rest, sys, o, ho, hr, hro, hasync => by
      obtain ⟨K1, K2, Kcfg, Kobs⟩ := logCall_inv sys r c o ho hr hro hasync
      have hrun : runCalls sys r (c :: rest)
          = runCalls (logCall sys r c.1 c.2.1 c.2.2) r rest := by
        simp [runCalls]
      set o1 := getLogger (logCall sys r c.1 c.2.1 c.2.2) r with ho1
      have hr1 : r < (logCall sys r c.1 c.2.1 c.2.2).loggers.length := by
        rw [K1]
        exact hr
      have hro1 : o1.routerRef
          < (logCall sys r c.1 c.2.1 c.2.2).routers.length := by
        rw [Kcfg.2.2.1, K2]
        exact hro
      have hasync1 : o1.isAsync = true := by
        rw [Kcfg.2.2.2.1]
        exact hasync
      obtain ⟨I1, I2, Icfg, Iobs⟩ := runCalls_inv r rest
        (logCall sys r c.1 c.2.1 c.2.2) o1 ho1.symm hr1 hro1 hasync1
      rw [hrun]
      refine ⟨I1.trans K1, I2.trans K2, sameConfig_trans Kcfg Icfg, ?_⟩
      rw [Kcfg.2.2.1, dispatchOf_congr Kcfg, callRecord_congr Kcfg] at Iobs
      rw [Iobs, Kobs]
      simp

/-- Claim C3: for an async-mode logger, `flush()` swaps the buffer for an
empty one and then dispatches the swapped-out records to the sink router
in their original append order; flushing an empty buffer is a no-op; and
sink receipt order equals log-call order within one logger instance: after
any sequence of log calls (including any size-triggered flushes they
cause) followed by a flush, the router has received the previously pending
entries and then the calls' records, in call order. -/
theorem logger_flush_fifo (sys : LoggerSys) (r : Nat)
    (calls : List (LogLevelString × String × Option Int))
    (hr : r < sys.loggers.length)
    (hro : (getLogger sys r).routerRef < sys.routers.length)
    (hasync : (getLogger sys r).isAsync = true) :
    getLogger (flush sys r) r = { getLogger sys r with buffer := [] } ∧
    routerOut (flush sys r) (getLogger sys r).routerRef
      = routerOut sys (getLogger sys r).routerRef
        ++ (getLogger sys r).buffer.map (dispatchOf (getLogger sys r)) ∧
    ((getLogger sys r).buffer = [] → flush sys r = sys) ∧
    routerOut (flush (runCalls sys r calls) r) (getLogger sys r).routerRef
      = routerOut sys (getLogger sys r).routerRef
        ++ (getLogger sys r).buffer.map (dispatchOf (getLogger sys r))
        ++ calls.map (callRecord (getLogger sys r)) := by
  obtain ⟨F1, F2, F3, F4⟩ := flush_obs sys r (getLogger sys r) rfl hr hro
  refine ⟨F3, F4, fun hb => flush_empty sys r hb, ?_⟩
  obtain ⟨R1, R2, Rcfg, Robs⟩ :=
    runCalls_inv r calls sys (getLogger sys r) rfl hr hro hasync
  have hrN : r < (runCalls sys r calls).loggers.length := by
    rw [R1]
    exact hr
  have hroN : (getLogger (runCalls sys r calls) r).routerRef
      < (runCalls sys r calls).routers.length := by
    rw [Rcfg.2.2.1, R2]
    exact hro
  obtain ⟨G1, G2, G3, G4⟩ := flush_obs (runCalls sys r calls) r
    (getLogger (runCalls sys r calls) r) rfl hrN hroN
  rw [Rcfg.2.2.1, dispatchOf_congr Rcfg] at G4
  rw [G4]
  exact Robs

/-- Witness for `logger_flush_fifo` on the concrete system: one async
logger with flush threshold 2 and one pending entry; two log calls (the
first triggers a size flush) followed by a final flush leave the router
with the pending entry's record and then the two calls' records, in call
order. -/
theorem logger_flush_fifo_witness :
    (0 < sampleSys.loggers.length ∧
     (getLogger sampleSys 0).routerRef < sampleSys.routers.length ∧
     (getLogger sampleSys 0).isAsync = true) ∧
    (getLogger (flush sampleSys 0) 0
        = { getLogger sampleSys 0 with buffer := [] } ∧
     routerOut (flush sampleSys 0) (getLogger sampleSys 0).routerRef
       = routerOut sampleSys (getLogger sampleSys 0).routerRef
         ++ (getLogger sampleSys 0).buffer.map
             (dispatchOf (getLogger sampleSys 0)) ∧
     ((getLogger sampleSys 0).buffer = [] → flush sampleSys 0 = sampleSys) ∧
     routerOut (flush (runCalls sampleSys 0
           [(LogLevelString.info, "a", none),
            (LogLevelString.error, "b", none)]) 0)
         (getLogger sampleSys 0).routerRef
       = routerOut sampleSys (getLogger sampleSys 0).routerRef
         ++ (getLogger sampleSys 0).buffer.map
             (dispatchOf (getLogger sampleSys 0))
         ++ [(LogLevelString.info, "a", (none : Option Int)),
             (LogLevelString.error, "b", none)].map
             (callRecord (getLogger sampleSys 0))) :=
  ⟨⟨by decide, by decide, by decide⟩,
   logger_flush_fifo sampleSys 0
     [(LogLevelString.info, "a", none), (LogLevelString.error, "b", none)]
     (by decide) (by decide) (by decide)⟩


/-- Helper: unfolding of `withContext`: result reference, heap growth,
the fresh object's fields, and preservation of all existing objects. -/
theorem withContext_spec (sys : LoggerSys) (r : Nat) (E : Ctx) :
    (withContext sys r E).2 = sys.loggers.length ∧
    (withContext sys r E).1.loggers.length = sys.loggers.length + 1 ∧
    (withContext sys r E).1.routers = sys.routers ∧
    getLogger (withContext sys r E).1 sys.loggers.length
      = { context := mergeCtx (getLogger sys r).context E, tracing := none,
          routerRef := (getLogger sys r).routerRef,
          metricsRef := (getLogger sys r).metricsRef, buffer := [],
          isAsync := (getLogger sys r).isAsync,
          bufferSize := (getLogger sys r).bufferSize,
          hasFlushTimer := false } ∧
    (∀ j, j < sys.loggers.length →
      getLogger (withContext sys r E).1 j = getLogger sys j) :=
  ⟨rfl, by simp [withContext], rfl, listGetD_concat_length _ _ _,
   fun j hj => listGetD_append_left _ _ j default hj⟩

/-- Helper: unfolding of `withTracing`, analogous to `withContext_spec`. -/
theorem withTracing_spec (sys : LoggerSys) (r : Nat) (tr : Option Tracing)
    (ftr : Tracing) :
    (withTracing sys r tr ftr).2 = sys.loggers.length ∧
    (withTracing sys r tr ftr).1.routers = sys.routers ∧
    getLogger (withTracing sys r tr ftr).1 sys.loggers.length
      = { context := [], tracing := some (tr.getD ftr),
          routerRef := (getLogger sys r).routerRef,
          metricsRef := (getLogger sys r).metricsRef, buffer := [],
          isAsync := (getLogger sys r).isAsync,
          bufferSize := (getLogger sys r).bufferSize,
          hasFlushTimer := false } ∧
    (∀ j, j < sys.loggers.length →
      getLogger (withTracing sys r tr ftr).1 j = getLogger sys j) :=
  ⟨rfl, rfl, listGetD_concat_length _ _ _,
   fun j hj => listGetD_append_left _ _ j default hj⟩

/-- Helper: unfolding of `child`, analogous to `withContext_spec`; the
fresh object's router reference is the newly allocated router slot. -/
theorem child_spec (sys : LoggerSys) (r : Nat) (E : Ctx) :
    (child sys r E).2 = sys.loggers.length ∧
    getLogger (child sys r E).1 sys.loggers.length
      = { context := mergeCtx (getLogger sys r).context E, tracing := none,
          routerRef := sys.routers.length,
          metricsRef := (getLogger sys r).metricsRef, buffer := [],
          isAsync := (getLogger sys r).isAsync,
          bufferSize := (getLogger sys r).bufferSize,
          hasFlushTimer := false } ∧
    (∀ j, j < sys.loggers.length →
      getLogger (child sys r E).1 j = getLogger sys j) :=
  ⟨rfl, listGetD_concat_length _ _ _,
   fun j hj => listGetD_append_left _ _ j default hj⟩

/-- Claim C4: `withContext(E)` returns a NEW handle whose context is the
receiver's context overridden by `E` (`E` wins on key conflict, per-key:
the merged lookup prefers `E` and falls back to the receiver's context),
while the receiver object — and every other existing object — is left
unchanged on the heap; two derivations from the same parent yield distinct
handles, neither of which affects the other or the parent. -/
theorem logger_with_context_immutable (sys : LoggerSys) (r : Nat)
    (E1 E2 : Ctx) (k : String) (hr : r < sys.loggers.length) :
    (withContext sys r E1).2 = sys.loggers.length ∧
    (withContext sys r E1).2 ≠ r ∧
    (∀ j, j < sys.loggers.length →
      getLogger (withContext sys r E1).1 j = getLogger sys j) ∧
    (getLogger (withContext sys r E1).1 (withContext sys r E1).2).context
      = mergeCtx (getLogger sys r).context E1 ∧
    ctxLookup (mergeCtx (getLogger sys r).context E1) k
      = ((E1.lookup k).orElse
          (fun _ => (getLogger sys r).context.lookup k)) ∧
    (withContext (withContext sys r E1).1 r E2).2
      ≠ (withContext sys r E1).2 ∧
    (getLogger (withContext (withContext sys r E1).1 r E2).1
        (withContext sys r E1).2).context
      = mergeCtx (getLogger sys r).context E1 ∧
    (getLogger (withContext (withContext sys r E1).1 r E2).1
        (withContext (withContext sys r E1).1 r E2).2).context
      = mergeCtx (getLogger sys r).context E2 ∧
    getLogger (withContext (withContext sys r E1).1 r E2).1 r
      = getLogger sys r := by
  obtain ⟨A1, A2, A3, A4, A5⟩ := withContext_spec sys r E1
  obtain ⟨B1, B2, B3, B4, B5⟩ := withContext_spec (withContext sys r E1).1 r E2
  refine ⟨A1, ?_, A5, ?_, ctxLookup_mergeCtx _ _ _, ?_, ?_, ?_, ?_⟩
  · rw [A1]
    exact ne_of_gt hr
  · rw [A1, A4]
  · rw [B1, A1, A2]
    omega
  · rw [A1, B5 sys.loggers.length (by rw [A2]; omega), A4]
  · rw [B1, B4, A5 r hr]
  · rw [B5 r (by rw [A2]; omega), A5 r hr]

/-- Witness for `logger_with_context_immutable` on the concrete system:
parent context `{a: 0}`, derivations with `{a: 1}` and `{a: 2}` at key
`"a"`. -/
theorem logger_with_context_immutable_witness :
    0 < sampleSys.loggers.length ∧
    ((withContext sampleSys 0 [("a", 1)]).2 = sampleSys.loggers.length ∧
     (withContext sampleSys 0 [("a", 1)]).2 ≠ 0 ∧
     (∀ j, j < sampleSys.loggers.length →
       getLogger (withContext sampleSys 0 [("a", 1)]).1 j
         = getLogger sampleSys j) ∧
     (getLogger (withContext sampleSys 0 [("a", 1)]).1
         (withContext sampleSys 0 [("a", 1)]).2).context
       = mergeCtx (getLogger sampleSys 0).context [("a", 1)] ∧
     ctxLookup (mergeCtx (getLogger sampleSys 0).context [("a", 1)]) "a"
       = ((([("a", 1)] : Ctx).lookup "a").orElse
           (fun _ => (getLogger sampleSys 0).context.lookup "a")) ∧
     (withContext (withContext sampleSys 0 [("a", 1)]).1 0 [("a", 2)]).2
       ≠ (withContext sampleSys 0 [("a", 1)]).2 ∧
     (getLogger
         (withContext (withContext sampleSys 0 [("a", 1)]).1 0 [("a", 2)]).1
         (withContext sampleSys 0 [("a", 1)]).2).context
       = mergeCtx (getLogger sampleSys 0).context [("a", 1)] ∧
     (getLogger
         (withContext (withContext sampleSys 0 [("a", 1)]).1 0 [("a", 2)]).1
         (withContext (withContext sampleSys 0 [("a", 1)]).1 0
           [("a", 2)]).2).context
       = mergeCtx (getLogger sampleSys 0).context [("a", 2)] ∧
     getLogger
         (withContext (withContext sampleSys 0 [("a", 1)]).1 0 [("a", 2)]).1 0
       = getLogger sampleSys 0) :=
  ⟨by decide,
   logger_with_context_immutable sampleSys 0 [("a", 1)] [("a", 2)] "a"
     (by decide)⟩

/-- Claim C6 counterexample. The claim asserts every derived handle
references the same buffer instance as its parent, so async records
logged through a derived handle enter the same buffer and are flushed by
the same scheduler. On the concrete async system: the parent's buffer
holds one pending entry, but the handle derived by `withContext` starts
with its own fresh empty buffer; logging through the derived handle
leaves the parent's buffer unchanged and lands in the derived handle's
buffer; and the derived handle has no flush timer (`initialize()` is
never called on it). -/
theorem logger_private_buffer_counterexample :
    (getLogger (withContext sampleSys 0 []).1 1).buffer = [] ∧
    (getLogger sampleSys 0).buffer = [sampleEntry] ∧
    (getLogger (logCall (withContext sampleSys 0 []).1 1
        LogLevelString.info "d" none) 0).buffer = [sampleEntry] ∧
    (getLogger (logCall (withContext sampleSys 0 []).1 1
        LogLevelString.info "d" none) 1).buffer
      = [{ level := LogLevelString.info, message := "d", meta := none,
           context := [("a", 0)] }] ∧
    (getLogger (withContext sampleSys 0 []).1 1).hasFlushTimer = false := by
  decide

/-- Claim C6 (amended): handles derived by `withContext` and `withTracing`
reference the same winston router and the same metrics collector as the
parent; a handle derived by `child` references the same metrics collector
but a fresh winston child router object (not the parent's router
instance); and every derived handle has its own fresh empty buffer and no
flush timer, so async-mode records logged through a derived handle enter
that handle's own buffer, not the parent's. -/
theorem logger_shared_collaborators_amended (sys : LoggerSys) (r : Nat)
    (E : Ctx) (tr : Option Tracing) (ftr : Tracing)
    (hro : (getLogger sys r).routerRef < sys.routers.length) :
    (getLogger (withContext sys r E).1 (withContext sys r E).2).routerRef
      = (getLogger sys r).routerRef ∧
    (getLogger (withContext sys r E).1 (withContext sys r E).2).metricsRef
      = (getLogger sys r).metricsRef ∧
    (getLogger (withContext sys r E).1 (withContext sys r E).2).buffer
      = [] ∧
    (getLogger (withContext sys r E).1
        (withContext sys r E).2).hasFlushTimer = false ∧
    (getLogger (withTracing sys r tr ftr).1
        (withTracing sys r tr ftr).2).routerRef
      = (getLogger sys r).routerRef ∧
    (getLogger (withTracing sys r tr ftr).1
        (withTracing sys r tr ftr).2).metricsRef
      = (getLogger sys r).metricsRef ∧
    (getLogger (withTracing sys r tr ftr).1
        (withTracing sys r tr ftr).2).buffer = [] ∧
    (getLogger (withTracing sys r tr ftr).1
        (withTracing sys r tr ftr).2).hasFlushTimer = false ∧
    (getLogger (child sys r E).1 (child sys r E).2).metricsRef
      = (getLogger sys r).metricsRef ∧
    (getLogger (child sys r E).1 (child sys r E).2).buffer = [] ∧
    (getLogger (child sys r E).1 (child sys r E).2).hasFlushTimer = false ∧
    (getLogger (child sys r E).1 (child sys r E).2).routerRef
      ≠ (getLogger sys r).routerRef := by
  obtain ⟨A1, _, _, A4, _⟩ := withContext_spec sys r E
  obtain ⟨T1, _, T3, _⟩ := withTracing_spec sys r tr ftr
  obtain ⟨C1, C2, _⟩ := child_spec sys r E
  refine ⟨?_, ?_, ?_, ?_, ?_, ?_, ?_, ?_, ?_, ?_, ?_, ?_⟩
  · rw [A1, A4]
  · rw [A1, A4]
  · rw [A1, A4]
  · rw [A1, A4]
  · rw [T1, T3]
  · rw [T1, T3]
  · rw [T1, T3]
  · rw [T1, T3]
  · rw [C1, C2]
  · rw [C1, C2]
  · rw [C1, C2]
  · rw [C1, C2]
    exact ne_of_gt hro

/-- Witness for `logger_shared_collaborators_amended` on the concrete
one-logger system. -/
theorem logger_shared_collaborators_amended_witness :
    (getLogger sampleSys 0).routerRef < sampleSys.routers.length ∧
    ((getLogger (withContext sampleSys 0 [("b", 1)]).1
        (withContext sampleSys 0 [("b", 1)]).2).routerRef
      = (getLogger sampleSys 0).routerRef ∧
    (getLogger (withContext sampleSys 0 [("b", 1)]).1
        (withContext sampleSys 0 [("b", 1)]).2).metricsRef
      = (getLogger sampleSys 0).metricsRef ∧
    (getLogger (withContext sampleSys 0 [("b", 1)]).1
        (withContext sampleSys 0 [("b", 1)]).2).buffer = [] ∧
    (getLogger (withContext sampleSys 0 [("b", 1)]).1
        (withContext sampleSys 0 [("b", 1)]).2).hasFlushTimer = false ∧
    (getLogger (withTracing sampleSys 0 none
        { traceId := "t", spanId := "s", parentSpanId := none }).1
        (withTracing sampleSys 0 none
        { traceId := "t", spanId := "s", parentSpanId := none }).2).routerRef
      = (getLogger sampleSys 0).routerRef ∧
    (getLogger (withTracing sampleSys 0 none
        { traceId := "t", spanId := "s", parentSpanId := none }).1
        (withTracing sampleSys 0 none
        { traceId := "t", spanId := "s", parentSpanId := none }).2).metricsRef
      = (getLogger sampleSys 0).metricsRef ∧
    (getLogger (withTracing sampleSys 0 none
        { traceId := "t", spanId := "s", parentSpanId := none }).1
        (withTracing sampleSys 0 none
        { traceId := "t", spanId := "s", parentSpanId := none }).2).buffer
      = [] ∧
    (getLogger (withTracing sampleSys 0 none
        { traceId := "t", spanId := "s", parentSpanId := none }).1
        (withTracing sampleSys 0 none
        { traceId := "t", spanId := "s",
          parentSpanId := none }).2).hasFlushTimer = false ∧
    (getLogger (child sampleSys 0 [("b", 1)]).1
        (child sampleSys 0 [("b", 1)]).2).metricsRef
      = (getLogger sampleSys 0).metricsRef ∧
    (getLogger (child sampleSys 0 [("b", 1)]).1
        (child sampleSys 0 [("b", 1)]).2).buffer = [] ∧
    (getLogger (child sampleSys 0 [("b", 1)]).1
        (child sampleSys 0 [("b", 1)]).2).hasFlushTimer = false ∧
    (getLogger (child sampleSys 0 [("b", 1)]).1
        (child sampleSys 0 [("b", 1)]).2).routerRef
      ≠ (getLogger sampleSys 0).routerRef) :=
  ⟨by decide,
   logger_shared_collaborators_amended sampleSys 0 [("b", 1)] none
     { traceId := "t", spanId := "s", parentSpanId := none } (by decide)⟩

end CoreLoggerClaims
